import Mathlib

/-!
Verification development for the session / agent-runner core of the
workflow-automation repository.

The Python sources embedded here are:
  - components/chat_history_manager.py  (ChatEntry, ChatSession, ChatHistoryManager)
  - components/claude_runner.py         (ClaudeRunner)

Modelling conventions:
  - `datetime.now().isoformat()` is modelled by a logical clock producing the
    distinct strings "T0", "T1", ...; `str(uuid.uuid4())[:8]` by a fresh-name
    counter producing the distinct strings "u0", "u1", ....  Both are threaded
    explicitly through every operation that consumes them, in the order the
    Python code evaluates them.
  - `hashlib.md5(...).hexdigest()` is implemented below, faithfully to
    RFC 1321, over `Nat` with explicit `% 2^32` arithmetic.
  - The filesystem is part of the explicit state; a stored JSON document is
    modelled by the record of fields the code reads from it, with `Option`
    for fields accessed through `dict.get`, and a `corrupt` constructor for
    content whose parse raises (the code catches all such exceptions).
  - Python object aliasing of `self.current_session` into the per-project
    session list is modelled by a reference (`CurrentRef.inList pid idx`)
    resolved against the list, so that mutation through the reference is
    mutation of the list element, exactly as in CPython.
-/

/-! ## MD5 (RFC 1321), over `Nat` bytes -/

/-- 32-bit truncation. -/
def u32 (n : Nat) : Nat := n % 4294967296

/-- 32-bit left rotation, for `x < 2^32` and `c ≤ 32`. -/
def rotl32 (x c : Nat) : Nat := u32 (x * 2 ^ c + x / 2 ^ (32 - c))

/-- 32-bit bitwise complement, for `x < 2^32`. -/
def mnot (x : Nat) : Nat := 4294967295 - x

/-- The 64 sine-derived round constants of MD5. -/
def md5K : List Nat :=
  [3614090360, 3905402710, 606105819, 3250441966,
   4118548399, 1200080426, 2821735955, 4249261313,
   1770035416, 2336552879, 4294925233, 2304563134,
   1804603682, 4254626195, 2792965006, 1236535329,
   4129170786, 3225465664, 643717713, 3921069994,
   3593408605, 38016083, 3634488961, 3889429448,
   568446438, 3275163606, 4107603335, 1163531501,
   2850285829, 4243563512, 1735328473, 2368359562,
   4294588738, 2272392833, 1839030562, 4259657740,
   2763975236, 1272893353, 4139469664, 3200236656,
   681279174, 3936430074, 3572445317, 76029189,
   3654602809, 3873151461, 530742520, 3299628645,
   4096336452, 1126891415, 2878612391, 4237533241,
   1700485571, 2399980690, 4293915773, 2240044497,
   1873313359, 4264355552, 2734768916, 1309151649,
   4149444226, 3174756917, 718787259, 3951481745]

/-- The 64 per-round left-rotation amounts of MD5. -/
def md5S : List Nat :=
  [7, 12, 17, 22, 7, 12, 17, 22, 7, 12, 17, 22, 7, 12, 17, 22,
   5, 9, 14, 20, 5, 9, 14, 20, 5, 9, 14, 20, 5, 9, 14, 20,
   4, 11, 16, 23, 4, 11, 16, 23, 4, 11, 16, 23, 4, 11, 16, 23,
   6, 10, 15, 21, 6, 10, 15, 21, 6, 10, 15, 21, 6, 10, 15, 21]

/-- One MD5 round applied to the running state `(a, b, c, d)`,
using the 16 message words `M` of the current chunk. -/
def md5Step (M : List Nat) (st : Nat × Nat × Nat × Nat) (i : Nat) :
    Nat × Nat × Nat × Nat :=
  let a := st.1
  let b := st.2.1
  let c := st.2.2.1
  let d := st.2.2.2
  let f :=
    if i < 16 then (b &&& c) ||| (mnot b &&& d)
    else if i < 32 then (d &&& b) ||| (mnot d &&& c)
    else if i < 48 then b ^^^ c ^^^ d
    else c ^^^ (b ||| mnot d)
  let g :=
    if i < 16 then i
    else if i < 32 then (5 * i + 1) % 16
    else if i < 48 then (3 * i + 5) % 16
    else (7 * i) % 16
  let f2 := u32 (f + a + md5K.getD i 0 + M.getD g 0)
  (d, u32 (b + rotl32 f2 (md5S.getD i 0)), b, c)

/-- Decode 4 bytes at position `4*j` of a 64-byte chunk as a little-endian
32-bit word. -/
def md5Word (chunk : List Nat) (j : Nat) : Nat :=
  chunk.getD (4 * j) 0 + 256 * chunk.getD (4 * j + 1) 0 +
    65536 * chunk.getD (4 * j + 2) 0 + 16777216 * chunk.getD (4 * j + 3) 0

/-- Process one 64-byte chunk. -/
def md5Chunk (st : Nat × Nat × Nat × Nat) (chunk : List Nat) :
    Nat × Nat × Nat × Nat :=
  let M := (List.range 16).map (md5Word chunk)
  let r := (List.range 64).foldl (md5Step M) st
  (u32 (st.1 + r.1), u32 (st.2.1 + r.2.1),
   u32 (st.2.2.1 + r.2.2.1), u32 (st.2.2.2 + r.2.2.2))

/-- MD5 padding: append `0x80`, zeros to 56 mod 64, then the original
bit length as a little-endian 64-bit quantity. -/
def md5Pad (msg : List Nat) : List Nat :=
  let l := msg.length
  let zeros := (120 - (l + 1) % 64) % 64
  let bits := (l * 8) % 18446744073709551616
  msg ++ [128] ++ List.replicate zeros 0 ++
    [bits % 256, bits / 256 % 256, bits / 65536 % 256, bits / 16777216 % 256,
     bits / 4294967296 % 256, bits / 1099511627776 % 256,
     bits / 281474976710656 % 256, bits / 72057594037927936 % 256]

/-- Run the MD5 compression over all 64-byte chunks of a padded message. -/
def md5Core (bytes : List Nat) : Nat × Nat × Nat × Nat :=
  let padded := md5Pad bytes
  (List.range (padded.length / 64)).foldl
    (fun st i => md5Chunk st ((padded.drop (64 * i)).take 64))
    (1732584193, 4023233417, 2562383102, 271733878)

/-- UTF-8 encoding of one character, as Python `str.encode()` performs it. -/
def utf8Encode (c : Char) : List Nat :=
  let n := c.toNat
  if n < 128 then [n]
  else if n < 2048 then [192 + n / 64, 128 + n % 64]
  else if n < 65536 then [224 + n / 4096, 128 + n / 64 % 64, 128 + n % 64]
  else [240 + n / 262144, 128 + n / 4096 % 64, 128 + n / 64 % 64, 128 + n % 64]

/-- UTF-8 bytes of a string. -/
def strBytes (s : String) : List Nat := (s.toList.map utf8Encode).flatten

/-- Lowercase hexadecimal digit for `n < 16`. -/
def hexDigit (n : Nat) : Char :=
  if n < 10 then Char.ofNat (48 + n) else Char.ofNat (87 + n)

/-- The 8 hex characters of one 32-bit state word, serialized little-endian
byte first, high nibble of each byte first (as `hexdigest` renders it). -/
def hexWordLE (w : Nat) : List Char :=
  [hexDigit (w % 256 / 16), hexDigit (w % 16),
   hexDigit (w / 256 % 256 / 16), hexDigit (w / 256 % 16),
   hexDigit (w / 65536 % 256 / 16), hexDigit (w / 65536 % 16),
   hexDigit (w / 16777216 % 256 / 16), hexDigit (w / 16777216 % 16)]

/-- The 32 characters of `hashlib.md5(s.encode()).hexdigest()`. -/
def md5HexChars (s : String) : List Char :=
  let st := md5Core (strBytes s)
  hexWordLE st.1 ++ hexWordLE st.2.1 ++ hexWordLE st.2.2.1 ++ hexWordLE st.2.2.2

/-- `hashlib.md5(s.encode()).hexdigest()` as a string. -/
def md5Hex (s : String) : String := String.mk (md5HexChars s)

/-! ## Python string primitives used by the sources -/

/-- Python default whitespace for `str.strip()` / `str.split()`
(ASCII part: space, tab, newline, carriage return, vertical tab, form feed). -/
def pyIsSpace (c : Char) : Bool :=
  c == ' ' || c == '\t' || c == '\n' || c == '\x0d' || c == '\x0b' || c == '\x0c'

/-- Strip characters satisfying `p` from both ends of a character list. -/
def stripWhile (p : Char → Bool) (l : List Char) : List Char :=
  ((l.dropWhile p).reverse.dropWhile p).reverse

/-- Python `s.strip()` (default whitespace). -/
def pyStrip (s : String) : String := String.mk (stripWhile pyIsSpace s.toList)

/-- Python `s.strip('.,!?:')`. -/
def stripPunct (s : String) : String :=
  String.mk (stripWhile (fun c => c == '.' || c == ',' || c == '!' || c == '?' || c == ':') s.toList)

/-- Python `s.split()` : split on whitespace runs, dropping empty pieces. -/
def pyWords (s : String) : List String :=
  let step : Char → List Char × List String → List Char × List String :=
    fun c acc =>
      if pyIsSpace c then
        match acc.1 with
        | [] => acc
        | w => ([], String.mk w :: acc.2)
      else (c :: acc.1, acc.2)
  let r := s.toList.foldr step ([], [])
  match r.1 with
  | [] => r.2
  | w => String.mk w :: r.2

/-- Python `s.lower()` (character-wise; exact on the ASCII texts involved). -/
def pyLower (s : String) : String := String.mk (s.toList.map Char.toLower)

/-- Python `s.title()` : uppercase every alphabetic character that follows a
non-alphabetic one (or the start), lowercase the rest. -/
def pyTitle (s : String) : String :=
  let r := s.toList.foldl
    (fun (acc : List Char × Bool) c =>
      if c.isAlpha then
        (acc.1 ++ [if acc.2 then c.toLower else c.toUpper], true)
      else (acc.1 ++ [c], false))
    ([], false)
  String.mk r.1

/-- `p` is a leading run of `l` (Python `text.startswith(p)` on char lists). -/
def startsWithChars : List Char → List Char → Bool
  | [], _ => true
  | _ :: _, [] => false
  | p :: ps, c :: cs => p == c && startsWithChars ps cs

/-! ## chat_history_manager.py : the auto-naming heuristic
(`ChatHistoryManager._generate_session_name`) -/

/-- The exact boilerplate openings removed by `_generate_session_name`. -/
def boilerplateStarts : List String :=
  ["Make a deep analysis of these code changes. Focus on:",
   "Generate a text prompt for orchestrator Claude agent",
   "Please analyze",
   "Can you help me",
   "I need help with",
   "Looking at this code"]

/-- The fixed vocabulary of code-related keywords. -/
def codeKeywords : List String :=
  ["bug", "error", "fix", "refactor", "optimize", "implement",
   "function", "class", "api", "database", "ui", "frontend",
   "backend", "security", "performance", "test", "debug"]

/-- The stop-words dropped from the fallback word selection. -/
def stopWords : List String :=
  ["with", "this", "that", "they", "them", "these", "those"]

/-- The closing lines of `_generate_session_name`: truncate to 47 characters
plus an ellipsis when longer than 50, then `return name or "Chat Session"`. -/
def finishName (nm : String) : String :=
  let nm := if nm.length > 50 then String.mk (nm.toList.take 47) ++ "..." else nm
  if nm = "" then "Chat Session" else nm

/-- `ChatHistoryManager._generate_session_name`, line for line. -/
def generate_session_name (prompt_text : String) : String :=
  let text := pyStrip prompt_text
  let text :=
    match boilerplateStarts.find? (fun p => startsWithChars p.toList text.toList) with
    | some p => pyStrip (String.mk (text.toList.drop p.length))
    | none => text
  let words := pyWords text
  let foundKeywords := (words.take 20).filterMap
    (fun w => if codeKeywords.contains (stripPunct (pyLower w)) then some (pyLower w) else none)
  let nm :=
    if foundKeywords ≠ [] then
      pyTitle (String.intercalate " " (foundKeywords.take 3))
    else
      let meaningful := (words.take 10).filter
        (fun w => w.length > 3 && !(stopWords.contains (pyLower w)))
      if meaningful ≠ [] then String.intercalate " " (meaningful.take 4)
      else if words ≠ [] then String.intercalate " " (words.take 4)
      else "New Session"
  finishName (pyTitle nm)

/-! ## chat_history_manager.py : project identifiers
(`ChatHistoryManager._get_project_id`) -/

/-- `ChatHistoryManager._get_project_id`: `"default"` for a falsy path
(`None` is modelled as `none`, the empty string as `some ""`), else the
first 12 characters of the MD5 hex digest of the path. -/
def get_project_id (project_path : Option String) : String :=
  match project_path with
  | none => "default"
  | some p => if p = "" then "default" else String.mk ((md5HexChars p).take 12)

/-! ## Nondeterminism sources: wall clock and uuid4 -/

/-- Explicit supply for `datetime.now().isoformat()` and
`str(uuid.uuid4())[:8]`.  Successive draws are distinct, which is the
property the code relies on. -/
structure Gen where
  clock : Nat
  uuidCtr : Nat
deriving DecidableEq, Repr

/-- One `datetime.now().isoformat()` call. -/
def Gen.now (g : Gen) : String × Gen :=
  ("T" ++ toString g.clock, { g with clock := g.clock + 1 })

/-- One `str(uuid.uuid4())[:8]` call. -/
def Gen.freshUuid (g : Gen) : String × Gen :=
  ("u" ++ toString g.uuidCtr, { g with uuidCtr := g.uuidCtr + 1 })

/-! ## chat_history_manager.py : ChatEntry -/

/-- `ChatEntry`: one prompt/response exchange. -/
structure ChatEntry where
  id : String
  timestamp : String
  prompt_type : String
  prompt_text : String
  response_text : String
  model_used : String
  token_usage : List (String × Nat)
deriving DecidableEq, Repr

/-- `ChatEntry._generate_id`: first 8 hex chars of
`md5(f"{timestamp}{prompt_text[:100]}")`. -/
def generate_entry_id (timestamp prompt_text : String) : String :=
  String.mk ((md5HexChars (timestamp ++ String.mk (prompt_text.toList.take 100))).take 8)

/-- `ChatEntry.__init__` (the `token_usage or {}` default included). -/
def mkChatEntry (timestamp prompt_type prompt_text response_text model_used : String)
    (token_usage : Option (List (String × Nat))) : ChatEntry :=
  { id := generate_entry_id timestamp prompt_text
    timestamp, prompt_type, prompt_text, response_text, model_used
    token_usage := token_usage.getD [] }

/-- The JSON object written/read for a `ChatEntry`.  Fields the code reads
with `data[...]` (raising `KeyError` when missing) are plain; fields read
with `data.get(...)` are `Option`.  A stored object missing a plain field
makes the whole load raise, which is the `corrupt` file case below. -/
structure EntryDict where
  id : Option String
  timestamp : String
  prompt_type : String
  prompt_text : String
  response_text : String
  model_used : String
  token_usage : Option (List (String × Nat))
deriving DecidableEq, Repr

/-- `ChatEntry.to_dict`. -/
def ChatEntry.to_dict (e : ChatEntry) : EntryDict :=
  { id := some e.id
    timestamp := e.timestamp
    prompt_type := e.prompt_type
    prompt_text := e.prompt_text
    response_text := e.response_text
    model_used := e.model_used
    token_usage := some e.token_usage }

/-- `ChatEntry.from_dict`. -/
def ChatEntry.from_dict (d : EntryDict) : ChatEntry :=
  let e := mkChatEntry d.timestamp d.prompt_type d.prompt_text d.response_text
    d.model_used d.token_usage
  { e with id := d.id.getD e.id }

/-! ## chat_history_manager.py : ChatSession -/

/-- `ChatSession`. -/
structure ChatSession where
  session_id : String
  session_name : String
  created_at : String
  updated_at : String
  entries : List ChatEntry
  is_saved : Bool
  auto_named : Bool
deriving DecidableEq, Repr

/-- `ChatSession.__init__`: `session_id or str(uuid.uuid4())[:8]` (the uuid is
drawn only when the given id is falsy), `session_name or "New Chat"`, and
`created_at = updated_at = datetime.now().isoformat()`. -/
def mkChatSession (g : Gen) (session_name : Option String)
    (session_id : Option String) : ChatSession × Gen :=
  let (sid, g) :=
    if (session_id.getD "") = "" then g.freshUuid else (session_id.getD "", g)
  let nm := if (session_name.getD "") = "" then "New Chat" else session_name.getD ""
  let (ts, g) := g.now
  ({ session_id := sid, session_name := nm, created_at := ts, updated_at := ts,
     entries := [], is_saved := false, auto_named := false }, g)

/-- `ChatSession.add_entry`: append, stamp `updated_at` with a fresh now,
clear `is_saved`. -/
def ChatSession.addEntry (g : Gen) (s : ChatSession) (e : ChatEntry) :
    ChatSession × Gen :=
  let (ts, g) := g.now
  ({ s with entries := s.entries ++ [e], updated_at := ts, is_saved := false }, g)

/-- The JSON object written/read for a `ChatSession`; every field is read
with `data.get(...)`, hence `Option`. -/
structure SessionDict where
  session_id : Option String
  session_name : Option String
  created_at : Option String
  updated_at : Option String
  entries : Option (List EntryDict)
  is_saved : Option Bool
  auto_named : Option Bool
deriving DecidableEq, Repr

/-- `ChatSession.to_dict`. -/
def ChatSession.to_dict (s : ChatSession) : SessionDict :=
  { session_id := some s.session_id
    session_name := some s.session_name
    created_at := some s.created_at
    updated_at := some s.updated_at
    entries := some (s.entries.map ChatEntry.to_dict)
    is_saved := some s.is_saved
    auto_named := some s.auto_named }

/-- `ChatSession.from_dict`: construct through `__init__` (consuming a clock
tick, and a uuid only if the stored id is falsy), then overwrite the fields
present in the object. -/
def ChatSession.from_dict (g : Gen) (d : SessionDict) : ChatSession × Gen :=
  let (s, g) := mkChatSession g (some (d.session_name.getD "New Chat")) d.session_id
  ({ s with
      created_at := d.created_at.getD s.created_at
      updated_at := d.updated_at.getD s.updated_at
      is_saved := d.is_saved.getD false
      auto_named := d.auto_named.getD false
      entries := (d.entries.getD []).map ChatEntry.from_dict }, g)

/-- Parse a stored list of session objects in order, threading the
clock/uuid supply exactly as the Python list comprehension does. -/
def parseSessions (g : Gen) : List SessionDict → List ChatSession × Gen
  | [] => ([], g)
  | d :: ds =>
    let (s, g1) := ChatSession.from_dict g d
    let (rest, g2) := parseSessions g1 ds
    (s :: rest, g2)

/-! ## chat_history_manager.py : ChatHistoryManager state -/

/-- Content of a `sessions_<pid>.json` file as the loader sees it:
either a parsed list of session objects, or content whose read/parse
raises (caught, treated as no sessions). -/
inductive SessionsFileContent
  | good (sessions : List SessionDict)
  | corrupt
deriving DecidableEq, Repr

/-- Content of a legacy `history_<pid>.json` file. -/
inductive LegacyFileContent
  | good (entries : List EntryDict)
  | corrupt
deriving DecidableEq, Repr

/-- `self.current_session` is a Python object reference; it either aliases
element `idx` of the project list keyed `pid`, or holds a session that is in
no list (created while `current_project_path` was falsy). -/
inductive CurrentRef
  | inList (pid : String) (idx : Nat)
  | detached (s : ChatSession)
deriving DecidableEq, Repr

/-- Association-list lookup (Python dict indexing). -/
def lookupA {α : Type} (l : List (String × α)) (k : String) : Option α :=
  (l.find? (fun p => p.1 == k)).map (fun p => p.2)

/-- Association-list update (Python dict assignment): replace the value at
the key if present, else append the binding. -/
def setA {α : Type} : List (String × α) → String → α → List (String × α)
  | [], k, v => [(k, v)]
  | p :: tl, k, v => if p.1 == k then (k, v) :: tl else p :: setA tl k v

/-- The full `ChatHistoryManager` state, filesystem included.
`migration_runs` is ghost instrumentation counting how many times
`_migrate_legacy_history` has been invoked; it influences nothing. -/
structure MState where
  gen : Gen
  fs_sessions : List (String × SessionsFileContent)
  fs_legacy : List (String × LegacyFileContent)
  current_project_path : Option String
  project_sessions : List (String × List ChatSession)
  current : Option CurrentRef
  active_session_id : Option String
  current_project_history : List ChatEntry
  migration_runs : Nat
deriving DecidableEq, Repr

/-- Python truthiness of an optional path. -/
def pathTruthy : Option String → Bool
  | none => false
  | some p => p ≠ ""

/-- Resolve the `current_session` reference to its session value. -/
def MState.getCurrent (st : MState) : Option ChatSession :=
  match st.current with
  | none => none
  | some (.inList pid idx) =>
    (lookupA st.project_sessions pid).bind (fun l => l.get? idx)
  | some (.detached s) => some s

/-- Mutate through the `current_session` reference: when it aliases a list
element, the list element changes, exactly as attribute mutation on the
shared CPython object does. -/
def MState.setCurrent (st : MState) (f : ChatSession → ChatSession) : MState :=
  match st.current with
  | none => st
  | some (.inList pid idx) =>
    match lookupA st.project_sessions pid with
    | none => st
    | some l =>
      match l.get? idx with
      | none => st
      | some s =>
        { st with project_sessions := setA st.project_sessions pid (l.set idx (f s)) }
  | some (.detached s) => { st with current := some (.detached (f s)) }

/-! ## chat_history_manager.py : ChatHistoryManager operations -/

/-- `ChatHistoryManager.start_new_session`. -/
def start_new_session (st : MState) (session_name : String := "New Chat") :
    MState × ChatSession :=
  let (s, g) := mkChatSession st.gen (some session_name) none
  let st := { st with gen := g, active_session_id := some s.session_id }
  if pathTruthy st.current_project_path then
    let pid := get_project_id st.current_project_path
    let l := (lookupA st.project_sessions pid).getD []
    let ps := setA st.project_sessions pid (l ++ [s])
    let cur : Option CurrentRef := some (.inList pid l.length)
    ({ st with project_sessions := ps, current := cur, current_project_history := [] }, s)
  else
    ({ st with current := some (.detached s), current_project_history := [] }, s)

/-- `ChatHistoryManager._migrate_legacy_history` (the body; the caller has
already checked that the legacy file exists). -/
def migrate_legacy_history (g : Gen) : LegacyFileContent → List ChatSession × Gen
  | .corrupt => ([], g)
  | .good entryDicts =>
    let entries := entryDicts.map ChatEntry.from_dict
    match entries with
    | [] => ([], g)
    | e0 :: _ =>
      let nm := generate_session_name e0.prompt_text
      let (s, g) := mkChatSession g (some nm) none
      let s := { s with
        entries := entries
        created_at := e0.timestamp
        updated_at := ((entries.getLast?).map (fun e => e.timestamp)).getD s.updated_at
        is_saved := true
        auto_named := true }
      ([s], g)

/-- `ChatHistoryManager.load_project_sessions`.  Returns the value the
Python method returns: the (aliased) per-project list after any fresh
session was appended to it. -/
def load_project_sessions (st : MState) (project_path : Option String) :
    MState × List ChatSession :=
  let st := { st with current_project_path := project_path }
  let pid := get_project_id project_path
  let (sessions, st) :=
    match lookupA st.fs_sessions pid with
    | some (.good ds) =>
      let (ss, g) := parseSessions st.gen ds
      (ss, { st with gen := g })
    | some .corrupt => ([], st)
    | none => ([], st)
  let (sessions, st) :=
    if sessions.isEmpty then
      match lookupA st.fs_legacy pid with
      | some lc =>
        let (ss, g) := migrate_legacy_history st.gen lc
        (ss, { st with gen := g, migration_runs := st.migration_runs + 1 })
      | none => (sessions, st)
    else (sessions, st)
  let st := { st with project_sessions := setA st.project_sessions pid sessions }
  let st :=
    match sessions.getLast? with
    | none => (start_new_session st).1
    | some lastS =>
      let cur : Option CurrentRef := some (.inList pid (sessions.length - 1))
      { st with current := cur, active_session_id := some lastS.session_id }
  let hist := ((st.getCurrent).map (fun s => s.entries)).getD []
  let st := { st with current_project_history := hist }
  (st, (lookupA st.project_sessions pid).getD [])

/-- `ChatHistoryManager.save_project_sessions`: full overwrite of the
per-project record (no-op when no project path is set; the wrapper fields
`project_path` / `last_updated`, which the loader never reads, are elided). -/
def save_project_sessions (st : MState) : MState :=
  if pathTruthy st.current_project_path then
    let pid := get_project_id st.current_project_path
    let sessions := (lookupA st.project_sessions pid).getD []
    let fs := setA st.fs_sessions pid (.good (sessions.map ChatSession.to_dict))
    { st with fs_sessions := fs }
  else st

/-- `ChatHistoryManager._schedule_auto_naming`. -/
def schedule_auto_naming (st : MState) : MState :=
  match st.getCurrent with
  | none => st
  | some cur =>
    if cur.entries.length == 1 then
      st.setCurrent (fun s =>
        { s with
          session_name :=
            generate_session_name (((s.entries.head?).map (fun e => e.prompt_text)).getD "")
          auto_named := true })
    else st

/-- `ChatHistoryManager._split_session`: keep the most recent 25 entries in
the (still current) session, move the rest into a new `"<name> (Part 1)"`
session inserted immediately before it.  The current-session reference keeps
designating the same object, whose index grew by one. -/
def split_session (st : MState) : MState :=
  match st.getCurrent with
  | none => st
  | some cur =>
    if cur.entries.length > 50 then
      let old_entries := cur.entries.take (cur.entries.length - 25)
      let st := st.setCurrent
        (fun s => { s with entries := s.entries.drop (s.entries.length - 25) })
      let mk := mkChatSession st.gen (some (cur.session_name ++ " (Part 1)")) none
      let st := { st with gen := mk.2 }
      let ca := ((old_entries.head?).map (fun e => e.timestamp)).getD mk.1.created_at
      let ua := ((old_entries.getLast?).map (fun e => e.timestamp)).getD mk.1.updated_at
      let olds := { mk.1 with entries := old_entries, created_at := ca, updated_at := ua, is_saved := true }
      let pid := get_project_id st.current_project_path
      let sessions := (lookupA st.project_sessions pid).getD []
      let cidx :=
        match st.current with
        | some (.inList p i) => if p == pid && i < sessions.length then i else sessions.length
        | _ => sessions.length
      let ps := setA st.project_sessions pid
        (sessions.take cidx ++ [olds] ++ sessions.drop cidx)
      let st := { st with project_sessions := ps }
      match st.current with
      | some (.inList p i) =>
        if p == pid && cidx ≤ i then { st with current := some (.inList p (i + 1)) } else st
      | _ => st
    else st

/-- `ChatHistoryManager.add_chat_entry`. -/
def add_chat_entry (st : MState)
    (prompt_type prompt_text response_text model_used : String)
    (token_usage : Option (List (String × Nat)) := none) : MState × ChatEntry :=
  let (ts, g) := st.gen.now
  let st := { st with gen := g }
  let e := mkChatEntry ts prompt_type prompt_text response_text model_used token_usage
  let st := if st.current.isNone then (start_new_session st).1 else st
  let (ts2, g2) := st.gen.now
  let st := { st with gen := g2 }
  let st := st.setCurrent
    (fun s => { s with entries := s.entries ++ [e], updated_at := ts2, is_saved := false })
  let hist := ((st.getCurrent).map (fun s => s.entries)).getD []
  let st := { st with current_project_history := hist }
  let st :=
    match st.getCurrent with
    | some cur =>
      if cur.entries.length == 1 && !cur.auto_named then schedule_auto_naming st else st
    | none => st
  let st :=
    match st.getCurrent with
    | some cur => if cur.entries.length > 50 then split_session st else st
    | none => st
  (save_project_sessions st, e)

/-- `ChatHistoryManager.clear_current_project_history`: clears the legacy
list, then calls `self.save_project_history()` — a method that no class in
the repository defines, so CPython raises `AttributeError` there.  The
mutation that happened before the raise is kept in the returned state. -/
def clear_current_project_history (st : MState) : MState × Except String Unit :=
  ({ st with current_project_history := [] },
   Except.error "AttributeError: ChatHistoryManager has no attribute save_project_history")

/-- `ChatHistoryManager.delete_chat_entry`: filters the legacy list, then
calls the same undefined `self.save_project_history()` and raises. -/
def delete_chat_entry (st : MState) (entry_id : String) : MState × Except String Unit :=
  ({ st with current_project_history :=
      st.current_project_history.filter (fun e => e.id != entry_id) },
   Except.error "AttributeError: ChatHistoryManager has no attribute save_project_history")

/-! ## claude_runner.py : ClaudeRunner -/

/-- Content of `~/.claude_workflow_sessions.json`: either a parsed object
whose `last_session_id` key may be present (possibly null), or content whose
read/parse raises (caught; the handle stays `None`). -/
inductive HandleFileContent
  | good (last_session_id : Option String)
  | corrupt
deriving DecidableEq, Repr

/-- `ClaudeRunner` state: the in-memory `last_session_id` and the on-disk
session file it is persisted to. -/
structure RunnerState where
  last_session_id : Option String
  session_file : Option HandleFileContent
deriving DecidableEq, Repr

/-- `ClaudeRunner.load_session_data`: read the stored id if the file exists
and parses; any failure leaves the handle as it was (`None` at startup). -/
def load_session_data (disk : Option HandleFileContent) : Option String :=
  match disk with
  | some (.good v) => v
  | some .corrupt => none
  | none => none

/-- `ClaudeRunner.__init__` against a given on-disk session file
(`load_session_data` runs at construction). -/
def mkClaudeRunner (disk : Option HandleFileContent) : RunnerState :=
  { last_session_id := load_session_data disk, session_file := disk }

/-- `ClaudeRunner.save_session_data`: overwrite the persisted record with
`{'last_session_id': self.last_session_id}`. -/
def save_session_data (st : RunnerState) : RunnerState :=
  { st with session_file := some (.good st.last_session_id) }

/-- The fields of the structured (JSON) response that
`execute_claude_prompt` probes.  `permission_denials` is only printed by the
code and does not affect the result, so it is elided. -/
structure JsonOutput where
  is_error : Option Bool
  error_message : Option String
  session_id : Option String
  result : Option String
  message : Option String
deriving DecidableEq, Repr

/-- How `json.loads` fares on the captured stdout: not JSON at all
(`JSONDecodeError`), JSON but not an object — in which case the subsequent
`.get` attribute access raises `AttributeError` with the given text, caught
by the outer handler — or a JSON object with the probed fields. -/
inductive ParsedStdout
  | notJson
  | jsonNonDict (exn_message : String)
  | jsonDict (o : JsonOutput)
deriving DecidableEq, Repr

/-- What the spawned subprocess does: completes with an exit status, output
streams and a parse of stdout; exceeds the timeout (`TimeoutExpired`); the
executable is absent (`FileNotFoundError`); or some other exception escapes
with the given `str(e)` (caught by the outer handler). -/
inductive ProcOutcome
  | completed (returncode : Int) (stdout : String) (stderr : String) (parsed : ParsedStdout)
  | timedOut
  | notFound
  | raised (exn_message : String)
deriving DecidableEq, Repr

/-- The environment of one `execute_claude_prompt` call: the process working
directory returned by `os.getcwd()`, which directories exist, and the
subprocess behaviour. -/
structure RunEnv where
  cwd : String
  existing_dirs : List String
  outcome : ProcOutcome
deriving DecidableEq, Repr

/-- The fixed sentinel substituted for an empty `result` field. -/
def sentinelText : String := "Claude completed the task. Check your files for changes."

/-- The generic error message for a missing executable. -/
def notFoundText : String :=
  "Claude Code CLI not found. Please ensure \x27claude\x27 command is available in PATH."

/-- The working-directory default of `execute_claude_prompt`:
`if not working_directory: working_directory = os.getcwd()`. -/
def resolve_working_directory (env : RunEnv) (working_directory : Option String) : String :=
  match working_directory with
  | some w => if w = "" then env.cwd else w
  | none => env.cwd

/-- `ClaudeRunner.execute_claude_prompt`: returns the mutated runner state
and the `(success, result, error)` tuple.  The argument-building,
temp-file and printing steps do not affect the returned tuple and are
elided; the control flow of directory validation, subprocess outcome
classification and response decoding is line for line from the source. -/
def execute_claude_prompt (env : RunEnv) (st : RunnerState)
    (working_directory : Option String) (timeout : Nat) :
    RunnerState × (Bool × String × String) :=
  let wd := resolve_working_directory env working_directory
  if !env.existing_dirs.contains wd then
    (st, (false, "", "Working directory does not exist: " ++ wd))
  else
    match env.outcome with
    | .timedOut =>
      (st, (false, "", "Claude execution timed out after " ++ toString timeout ++ " seconds"))
    | .notFound => (st, (false, "", notFoundText))
    | .raised m => (st, (false, "", m))
    | .completed rc stdout stderr parsed =>
      if rc = 0 then
        let output := pyStrip stdout
        match parsed with
        | .notJson => (st, (true, output, ""))
        | .jsonNonDict m => (st, (false, "", m))
        | .jsonDict o =>
          if o.is_error.getD false then
            (st, (false, "", o.error_message.getD "Unknown error from Claude"))
          else
            let st := match o.session_id with
              | some sid => save_session_data { st with last_session_id := some sid }
              | none => st
            match o.result with
            | some r =>
              if pyStrip r = "" then (st, (true, sentinelText, ""))
              else (st, (true, r, ""))
            | none =>
              match o.message with
              | some m => (st, (true, m, ""))
              | none => (st, (true, output, ""))
      else
        let em := if stderr ≠ "" then pyStrip stderr
          else "Claude failed with return code " ++ toString rc
        (st, (false, "", em))

/-! ## Helper lemmas -/

/-- A string of nonzero length is not the empty string. -/
lemma ne_empty_of_length (s : String) (h : s.length ≠ 0) : s ≠ "" :=
  fun he => h (by rw [he]; rfl)

/-- Length of a string built from a character list. -/
lemma length_mk (l : List Char) : (String.mk l).length = l.length := rfl

/-- The hex digest always has 32 characters, whatever the input. -/
lemma md5HexChars_length (s : String) : (md5HexChars s).length = 32 := by
  unfold md5HexChars hexWordLE
  simp [List.length_append]

/-- The closing step of the naming heuristic returns a non-empty string of
at most 50 characters. -/
lemma finishName_ne_empty_and_le (nm : String) :
    finishName nm ≠ "" ∧ (finishName nm).length ≤ 50 := by
  unfold finishName
  by_cases hA : nm.length > 50
  · simp only [if_pos hA]
    have hlen : (String.mk (nm.toList.take 47) ++ "...").length = 50 := by
      rw [String.length_append, length_mk, List.length_take]
      have h1 : nm.toList.length = nm.length := rfl
      have h3 : ("..." : String).length = 3 := rfl
      rw [h1, h3]
      omega
    have hne : (String.mk (nm.toList.take 47) ++ "...") ≠ "" :=
      ne_empty_of_length _ (by rw [hlen]; omega)
    rw [if_neg hne]
    exact ⟨hne, le_of_eq hlen⟩
  · simp only [if_neg hA]
    by_cases he : nm = ""
    · rw [if_pos he]
      exact ⟨by decide, by decide⟩
    · rw [if_neg he]
      exact ⟨he, by omega⟩

/-! ## Claims -/

/-- C6: the auto-naming heuristic is a pure deterministic function;
`name("Please analyze this bug in the login function")` contains "Bug"
case-insensitively (its lowercase form contains "bug") and is non-empty;
`name("")` is "New Session" or "Chat Session"; for every input the name is
non-empty and at most 50 characters long. -/
theorem generate_session_name_spec :
    (∃ l r, (pyLower (generate_session_name "Please analyze this bug in the login function")).toList
        = l ++ "bug".toList ++ r) ∧
    generate_session_name "Please analyze this bug in the login function" ≠ "" ∧
    (generate_session_name "" = "New Session" ∨ generate_session_name "" = "Chat Session") ∧
    ∀ x : String, generate_session_name x ≠ "" ∧ (generate_session_name x).length ≤ 50 := by
  refine ⟨⟨[], " function".toList, by decide⟩, by decide, Or.inl (by decide), fun x => ?_⟩
  exact finishName_ne_empty_and_le _

/-- C7 counterexample: the project identifier does not have one fixed
length for all inputs — the empty (falsy) path maps to the 7-character
`"default"` while non-empty paths map to 12-character hash stems. -/
theorem get_project_id_not_fixed_length :
    get_project_id (some "") = "default" ∧ (get_project_id (some "")).length = 7 ∧
    (get_project_id (some "/x")).length = 12 :=
  ⟨rfl, rfl, rfl⟩

/-- C7 amended: for every non-empty project path the identifier is a
deterministic 12-character stem of the MD5 hash of the path (the falsy path
is instead mapped to the fixed string `"default"`). -/
theorem get_project_id_deterministic_fixed_length (p q : String) (hp : p ≠ "") :
    (p = q → get_project_id (some p) = get_project_id (some q)) ∧
    (get_project_id (some p)).length = 12 := by
  constructor
  · intro h; rw [h]
  · show (if p = "" then "default" else String.mk ((md5HexChars p).take 12)).length = 12
    rw [if_neg hp]
    show ((md5HexChars p).take 12).length = 12
    rw [List.length_take]
    have := md5HexChars_length p
    omega

/-- C7 witness: the amended statement at the concrete path "/x". -/
theorem get_project_id_deterministic_fixed_length_witness :
    (("/x" : String) = "/x" → get_project_id (some "/x") = get_project_id (some "/x")) ∧
    (get_project_id (some "/x")).length = 12 :=
  get_project_id_deterministic_fixed_length "/x" "/x" (by decide)

/-- C10: `clear_current_project_history` and `delete_chat_entry` both call
the undefined `save_project_history` method and therefore raise on every
state; explicit clearing and entry deletion can never complete. -/
theorem clear_and_delete_always_raise (st : MState) (entry_id : String) :
    (∃ m, (clear_current_project_history st).2 = Except.error m) ∧
    (∃ m, (delete_chat_entry st entry_id).2 = Except.error m) :=
  ⟨⟨_, rfl⟩, ⟨_, rfl⟩⟩

/-- A nonempty left part makes a concatenation nonempty. -/
lemma append_ne_empty_left (s t : String) (h : s ≠ "") : s ++ t ≠ "" := by
  intro hc
  apply h
  cases s with
  | mk a =>
    cases t with
    | mk b =>
      have hdata : a ++ b = ([] : List Char) := congrArg String.data hc
      have ha : a = [] := (List.append_eq_nil.mp hdata).1
      rw [ha]

/-- Stripping the empty string yields the empty string, so a string with a
nonempty strip is nonempty. -/
lemma ne_empty_of_pyStrip (r : String) (h : pyStrip r ≠ "") : r ≠ "" :=
  fun hc => h (by rw [hc]; rfl)

/-- A concrete single-directory environment for witnesses. -/
def envOf (o : ProcOutcome) : RunEnv :=
  { cwd := "/w", existing_dirs := ["/w"], outcome := o }

/-- A freshly constructed runner with no session file on disk. -/
def runner0 : RunnerState := mkClaudeRunner none

/-- C4: a zero-exit structured response with the error flag set makes `run`
return `ok = false` with the embedded error message, whatever the `result`
field holds. -/
theorem execute_error_flag_precedence
    (env : RunEnv) (st : RunnerState) (wd : Option String) (t : Nat)
    (stdout stderr m : String) (o : JsonOutput)
    (hdir : env.existing_dirs.contains (resolve_working_directory env wd) = true)
    (hout : env.outcome = .completed 0 stdout stderr (.jsonDict o))
    (herr : o.is_error = some true)
    (hmsg : o.error_message = some m) :
    (execute_claude_prompt env st wd t).2 = (false, "", m) := by
  have hmem : resolve_working_directory env wd ∈ env.existing_dirs := by
    simpa using hdir
  simp [execute_claude_prompt, hmem, hout, herr, hmsg]

/-- C4 witness: concrete structured error response that also carries a
`result` field. -/
def oWitErr : JsonOutput :=
  { is_error := some true, error_message := some "agent failure",
    session_id := some "sid-1", result := some "some text", message := none }

/-- C4 witness: the theorem applied at a concrete invocation. -/
theorem execute_error_flag_precedence_witness :
    (execute_claude_prompt (envOf (.completed 0 "raw" "" (.jsonDict oWitErr)))
      runner0 (some "/w") 300).2 = (false, "", "agent failure") :=
  execute_error_flag_precedence (envOf (.completed 0 "raw" "" (.jsonDict oWitErr)))
    runner0 (some "/w") 300 "raw" "" "agent failure" oWitErr (by decide) rfl rfl rfl

/-- C2 counterexample: a zero-exit structured response whose only text field
is `message = ""` is surfaced as `ok = true` with the empty string — the
empty-text substitution does not cover the `message` path. -/
theorem execute_empty_message_counterexample :
    (execute_claude_prompt
      (envOf (.completed 0 "\x7b\x22message\x22: \x22\x22\x7d" ""
        (.jsonDict { is_error := none, error_message := none, session_id := none,
                     result := none, message := some "" })))
      runner0 (some "/w") 300).2 = (true, "", "") := rfl

/-- C2 amended: on a zero-exit structured non-error response the text is
taken from `result` if present, else `message` if present, else the
stripped stdout, with `ok = true`; the empty-text sentinel substitution
applies exactly on the `result` path (making that text always non-empty),
while the `message` path returns the embedded text verbatim, possibly
empty. -/
theorem execute_extraction_order
    (env : RunEnv) (st : RunnerState) (wd : Option String) (t : Nat)
    (stdout stderr : String) (o : JsonOutput)
    (hdir : env.existing_dirs.contains (resolve_working_directory env wd) = true)
    (hout : env.outcome = .completed 0 stdout stderr (.jsonDict o))
    (herr : o.is_error.getD false = false) :
    (execute_claude_prompt env st wd t).2.1 = true ∧
    (∀ r, o.result = some r →
      (pyStrip r = "" → (execute_claude_prompt env st wd t).2.2.1 = sentinelText) ∧
      (pyStrip r ≠ "" → (execute_claude_prompt env st wd t).2.2.1 = r) ∧
      (execute_claude_prompt env st wd t).2.2.1 ≠ "") ∧
    (o.result = none → ∀ m, o.message = some m →
      (execute_claude_prompt env st wd t).2.2.1 = m) ∧
    (o.result = none → o.message = none →
      (execute_claude_prompt env st wd t).2.2.1 = pyStrip stdout) := by
  have hmem : resolve_working_directory env wd ∈ env.existing_dirs := by
    simpa using hdir
  refine ⟨?_, ?_, ?_, ?_⟩
  · cases hr : o.result with
    | some r =>
      by_cases hrs : pyStrip r = "" <;>
        simp [execute_claude_prompt, hmem, hout, herr, hr, hrs]
    | none =>
      cases hm : o.message <;>
        simp [execute_claude_prompt, hmem, hout, herr, hr, hm]
  · intro r hr
    by_cases hrs : pyStrip r = ""
    · refine ⟨fun _ => ?_, fun hc => absurd hrs hc, ?_⟩ <;>
        simp [execute_claude_prompt, hmem, hout, herr, hr, hrs, sentinelText]
    · refine ⟨fun hc => absurd hc hrs, fun _ => ?_, ?_⟩ <;>
        simp [execute_claude_prompt, hmem, hout, herr, hr, hrs]
      exact ne_empty_of_pyStrip r hrs
  · intro hr m hm
    simp [execute_claude_prompt, hmem, hout, herr, hr, hm]
  · intro hr hm
    simp [execute_claude_prompt, hmem, hout, herr, hr, hm]

/-- C2 witness: concrete structured response with an empty `result` field. -/
def oWitEmptyRes : JsonOutput :=
  { is_error := none, error_message := none, session_id := none,
    result := some "", message := none }

/-- C2 witness: a structured response with `result = ""` yields `ok = true`
and the non-empty sentinel text, via the amended theorem at a concrete
invocation. -/
theorem execute_extraction_order_witness :
    (execute_claude_prompt
      (envOf (.completed 0 "\x7b\x22result\x22: \x22\x22\x7d" "" (.jsonDict oWitEmptyRes)))
      runner0 (some "/w") 300).2.2.1 = sentinelText ∧
    sentinelText ≠ "" :=
  ⟨((execute_extraction_order
      (envOf (.completed 0 "\x7b\x22result\x22: \x22\x22\x7d" "" (.jsonDict oWitEmptyRes)))
      runner0 (some "/w") 300 "\x7b\x22result\x22: \x22\x22\x7d" "" oWitEmptyRes
      (by decide) rfl rfl).2.1 "" rfl).1 rfl, by decide⟩

/-- C9 counterexample: a decoded structured response that carries both the
error flag and a session identifier persists nothing — the error return
happens before the handle store is updated — so a fresh runner built
afterwards does not report the identifier. -/
theorem execute_error_discards_session_handle :
    (execute_claude_prompt
      (envOf (.completed 0 "raw" ""
        (.jsonDict { is_error := some true, error_message := some "E",
                     session_id := some "abc", result := some "x", message := none })))
      runner0 (some "/w") 300).1.last_session_id = none ∧
    (execute_claude_prompt
      (envOf (.completed 0 "raw" ""
        (.jsonDict { is_error := some true, error_message := some "E",
                     session_id := some "abc", result := some "x", message := none })))
      runner0 (some "/w") 300).1.session_file = none ∧
    (mkClaudeRunner (execute_claude_prompt
      (envOf (.completed 0 "raw" ""
        (.jsonDict { is_error := some true, error_message := some "E",
                     session_id := some "abc", result := some "x", message := none })))
      runner0 (some "/w") 300).1.session_file).last_session_id = none :=
  ⟨rfl, rfl, rfl⟩

/-- C9 amended: whenever a zero-exit structured response does not signal an
error and carries a session identifier, the handle is stored and persisted
immediately — whatever the `result`/`message` fields hold, including the
empty-text case — and a fresh runner constructed from the resulting disk
reports that identifier. -/
theorem execute_persists_session_handle
    (env : RunEnv) (st : RunnerState) (wd : Option String) (t : Nat)
    (stdout stderr sid : String) (o : JsonOutput)
    (hdir : env.existing_dirs.contains (resolve_working_directory env wd) = true)
    (hout : env.outcome = .completed 0 stdout stderr (.jsonDict o))
    (herr : o.is_error.getD false = false)
    (hsid : o.session_id = some sid) :
    (execute_claude_prompt env st wd t).1.last_session_id = some sid ∧
    (execute_claude_prompt env st wd t).1.session_file = some (.good (some sid)) ∧
    (mkClaudeRunner (execute_claude_prompt env st wd t).1.session_file).last_session_id
      = some sid := by
  have hmem : resolve_working_directory env wd ∈ env.existing_dirs := by
    simpa using hdir
  have hfst : (execute_claude_prompt env st wd t).1 =
      save_session_data { st with last_session_id := some sid } := by
    cases hr : o.result with
    | some r =>
      by_cases hrs : pyStrip r = "" <;>
        simp [execute_claude_prompt, hmem, hout, herr, hsid, hr, hrs]
    | none =>
      cases hm : o.message <;>
        simp [execute_claude_prompt, hmem, hout, herr, hsid, hr, hm]
  rw [hfst]
  exact ⟨rfl, rfl, rfl⟩

/-- C9 witness: concrete non-error structured response carrying a session
identifier and an empty `result`. -/
def oWitSid : JsonOutput :=
  { is_error := none, error_message := none, session_id := some "sess-42",
    result := some "", message := none }

/-- C9 witness: the amended theorem applied at a concrete invocation. -/
theorem execute_persists_session_handle_witness :
    (execute_claude_prompt (envOf (.completed 0 "raw" "" (.jsonDict oWitSid)))
      runner0 (some "/w") 300).1.last_session_id = some "sess-42" ∧
    (execute_claude_prompt (envOf (.completed 0 "raw" "" (.jsonDict oWitSid)))
      runner0 (some "/w") 300).1.session_file = some (.good (some "sess-42")) ∧
    (mkClaudeRunner (execute_claude_prompt (envOf (.completed 0 "raw" "" (.jsonDict oWitSid)))
      runner0 (some "/w") 300).1.session_file).last_session_id = some "sess-42" :=
  execute_persists_session_handle (envOf (.completed 0 "raw" "" (.jsonDict oWitSid)))
    runner0 (some "/w") 300 "raw" "" "sess-42" oWitSid (by decide) rfl rfl rfl

/-- C5 counterexample: a nonzero-exit invocation whose stderr is a single
space returns `ok = false` with an **empty** error message — `stderr` is
truthy, so the generic message is skipped, and stripping leaves nothing. -/
theorem execute_nonzero_exit_empty_error :
    (execute_claude_prompt (envOf (.completed 1 "" " " .notJson))
      runner0 (some "/w") 300).2 = (false, "", "") := rfl

/-- C5 amended: the call always returns a tuple and never raises (it is a
total function); every `ok = false` outcome carries empty text; the
enumerated failure modes — missing working directory, timeout, missing
executable, and nonzero exit with empty or non-whitespace stderr — carry a
non-empty error message (agent-reported errors, internal exceptions and
whitespace-only stderr pass a possibly-empty message through instead). -/
theorem execute_failure_contract
    (env : RunEnv) (st : RunnerState) (wd : Option String) (t : Nat) :
    ((execute_claude_prompt env st wd t).2.1 = false →
      (execute_claude_prompt env st wd t).2.2.1 = "") ∧
    (env.existing_dirs.contains (resolve_working_directory env wd) = false →
      (execute_claude_prompt env st wd t).2.1 = false ∧
      (execute_claude_prompt env st wd t).2.2.2 ≠ "") ∧
    (env.existing_dirs.contains (resolve_working_directory env wd) = true →
      (env.outcome = .timedOut →
        (execute_claude_prompt env st wd t).2.1 = false ∧
        (execute_claude_prompt env st wd t).2.2.2 ≠ "") ∧
      (env.outcome = .notFound →
        (execute_claude_prompt env st wd t).2.1 = false ∧
        (execute_claude_prompt env st wd t).2.2.2 ≠ "") ∧
      (∀ rc stdout stderr parsed,
        env.outcome = .completed rc stdout stderr parsed → rc ≠ 0 →
        (execute_claude_prompt env st wd t).2.1 = false ∧
        (stderr = "" → (execute_claude_prompt env st wd t).2.2.2 ≠ "") ∧
        (pyStrip stderr ≠ "" → (execute_claude_prompt env st wd t).2.2.2 ≠ ""))) := by
  refine ⟨?_, ?_, ?_⟩
  · by_cases hmem : resolve_working_directory env wd ∈ env.existing_dirs
    · cases ho : env.outcome with
      | timedOut => intro _; simp [execute_claude_prompt, hmem, ho]
      | notFound => intro _; simp [execute_claude_prompt, hmem, ho]
      | raised m => intro _; simp [execute_claude_prompt, hmem, ho]
      | completed rc stdout stderr parsed =>
        by_cases hrc : rc = 0
        · subst hrc
          cases parsed with
          | notJson =>
            intro hfalse
            exfalso
            simp [execute_claude_prompt, hmem, ho] at hfalse
          | jsonNonDict m => intro _; simp [execute_claude_prompt, hmem, ho]
          | jsonDict o =>
            by_cases he : o.is_error.getD false = true
            · intro _; simp [execute_claude_prompt, hmem, ho, he]
            · intro hfalse
              exfalso
              cases hr : o.result with
              | some r =>
                by_cases hrs : pyStrip r = "" <;>
                  simp [execute_claude_prompt, hmem, ho, he, hr, hrs] at hfalse
              | none =>
                cases hm : o.message with
                | some m => simp [execute_claude_prompt, hmem, ho, he, hr, hm] at hfalse
                | none => simp [execute_claude_prompt, hmem, ho, he, hr, hm] at hfalse
        · intro _; simp [execute_claude_prompt, hmem, ho, hrc]
    · intro _; simp [execute_claude_prompt, hmem]
  · intro hdirF
    have hnm : ¬(resolve_working_directory env wd ∈ env.existing_dirs) := by
      simpa using hdirF
    constructor
    · simp [execute_claude_prompt, hnm]
    · have hv : (execute_claude_prompt env st wd t).2.2.2 =
          "Working directory does not exist: " ++ resolve_working_directory env wd := by
        simp [execute_claude_prompt, hnm]
      rw [hv]
      exact append_ne_empty_left _ _ (by decide)
  · intro hdirT
    have hmem : resolve_working_directory env wd ∈ env.existing_dirs := by
      simpa using hdirT
    refine ⟨fun ho => ?_, fun ho => ?_, fun rc stdout stderr parsed ho hrc => ?_⟩
    · constructor
      · simp [execute_claude_prompt, hmem, ho]
      · have : (execute_claude_prompt env st wd t).2.2.2 =
            "Claude execution timed out after " ++ toString t ++ " seconds" := by
          simp [execute_claude_prompt, hmem, ho]
        rw [this]
        exact append_ne_empty_left _ _ (append_ne_empty_left _ _ (by decide))
    · constructor
      · simp [execute_claude_prompt, hmem, ho]
      · have : (execute_claude_prompt env st wd t).2.2.2 = notFoundText := by
          simp [execute_claude_prompt, hmem, ho]
        rw [this]
        decide
    · refine ⟨?_, ?_, ?_⟩
      · simp [execute_claude_prompt, hmem, ho, hrc]
      · intro hse
        have : (execute_claude_prompt env st wd t).2.2.2 =
            "Claude failed with return code " ++ toString rc := by
          simp [execute_claude_prompt, hmem, ho, hrc, hse]
        rw [this]
        exact append_ne_empty_left _ _ (by decide)
      · intro hss
        have hse2 : stderr ≠ "" := ne_empty_of_pyStrip stderr hss
        have hv : (execute_claude_prompt env st wd t).2.2.2 = pyStrip stderr := by
          simp [execute_claude_prompt, hmem, ho, hrc, hse2]
        rw [hv]
        exact hss

/-- C5 witness: the amended contract applied at a concrete timed-out
invocation and at a concrete nonzero-exit invocation whose stderr is the
non-whitespace string "boom". -/
theorem execute_failure_contract_witness :
    (execute_claude_prompt (envOf .timedOut) runner0 (some "/w") 1).2.1 = false ∧
    (execute_claude_prompt (envOf .timedOut) runner0 (some "/w") 1).2.2.2 ≠ "" ∧
    (execute_claude_prompt (envOf (.completed 1 "" "boom" .notJson)) runner0
      (some "/w") 1).2.1 = false ∧
    (execute_claude_prompt (envOf (.completed 1 "" "boom" .notJson)) runner0
      (some "/w") 1).2.2.2 ≠ "" :=
  ⟨(((execute_failure_contract (envOf .timedOut) runner0 (some "/w") 1).2.2
      (by decide)).1 rfl).1,
   (((execute_failure_contract (envOf .timedOut) runner0 (some "/w") 1).2.2
      (by decide)).1 rfl).2,
   ((((execute_failure_contract (envOf (.completed 1 "" "boom" .notJson)) runner0
      (some "/w") 1).2.2 (by decide)).2.2) 1 "" "boom" .notJson rfl (by decide)).1,
   (((((execute_failure_contract (envOf (.completed 1 "" "boom" .notJson)) runner0
      (some "/w") 1).2.2 (by decide)).2.2) 1 "" "boom" .notJson rfl (by decide)).2.2
      (by decide))⟩

/-- Entry serialization round-trips exactly (the stored `id` wins over the
recomputed one, so every field is restored verbatim). -/
lemma entry_roundtrip (e : ChatEntry) : ChatEntry.from_dict e.to_dict = e := rfl

/-- Round-trip over a list of entries. -/
lemma entries_roundtrip (es : List ChatEntry) :
    (es.map ChatEntry.to_dict).map ChatEntry.from_dict = es := by
  induction es with
  | nil => rfl
  | cons e tl ih => simp [entry_roundtrip, ih]

/-- C8: serializing a `ChatSession` to its dictionary form and parsing it
back restores every field — id, name, both timestamps, flags, and the full
ordered entry list with ids, texts, labels and token usage.  (The two
hypotheses exclude the falsy id/name that `__init__`'s `or`-defaults would
replace; every session the program constructs satisfies them.) -/
theorem session_roundtrip (g : Gen) (s : ChatSession)
    (hid : s.session_id ≠ "") (hnm : s.session_name ≠ "") :
    (ChatSession.from_dict g s.to_dict).1 = s := by
  obtain ⟨sid, snm, ca, ua, es, sv, an⟩ := s
  simp only [ne_eq] at hid hnm
  simp [ChatSession.from_dict, ChatSession.to_dict, mkChatSession, hid, hnm]
  have h := entries_roundtrip es
  rw [List.map_map] at h
  exact h

/-- C8 witness: a concrete entry with non-ASCII text and a token-usage map. -/
def witEntry : ChatEntry :=
  { id := "e1a2b3c4", timestamp := "2024-01-01T00:00:00", prompt_type := "prompt",
    prompt_text := "héllo ✓ сессия", response_text := "résponse ✓",
    model_used := "claude-3-sonnet",
    token_usage := [("prompt_tokens", 10), ("completion_tokens", 5), ("total_tokens", 15)] }

/-- C8 witness: a concrete session holding that entry. -/
def witSession : ChatSession :=
  { session_id := "abc12345", session_name := "Tést Session",
    created_at := "2024-01-01T00:00:00", updated_at := "2024-01-01T00:05:00",
    entries := [witEntry], is_saved := true, auto_named := true }

/-- C8 witness: the round-trip theorem applied to that session. -/
theorem session_roundtrip_witness :
    (ChatSession.from_dict { clock := 0, uuidCtr := 0 } witSession.to_dict).1 = witSession :=
  session_roundtrip { clock := 0, uuidCtr := 0 } witSession (by decide) (by decide)

/-! ## Association-list and positional helpers -/

/-- Writing a key then reading it back yields the written value. -/
lemma lookupA_setA_self {α : Type} (l : List (String × α)) (k : String) (v : α) :
    lookupA (setA l k v) k = some v := by
  induction l with
  | nil => simp [lookupA, setA, List.find?]
  | cons p tl ih =>
    unfold setA
    by_cases hhd : p.1 == k
    · rw [if_pos hhd]
      simp [lookupA, List.find?]
    · rw [if_neg hhd]
      simpa [lookupA, List.find?, hhd] using ih

/-- Reading the element at the marker position of a decomposed list. -/
lemma get?_append_length {α : Type} (pre post : List α) (a : α) :
    (pre ++ a :: post).get? pre.length = some a := by
  induction pre with
  | nil => rfl
  | cons x xs ih => simpa using ih

/-- Setting the element at the marker position of a decomposed list. -/
lemma set_append_length {α : Type} (pre post : List α) (a b : α) :
    (pre ++ a :: post).set pre.length b = pre ++ b :: post := by
  induction pre with
  | nil => rfl
  | cons x xs ih => simp [ih]

/-- The pristine manager state produced by `ChatHistoryManager.__init__`
against an empty history directory. -/
def mgr0 : MState :=
  { gen := { clock := 0, uuidCtr := 0 }, fs_sessions := [], fs_legacy := [],
    current_project_path := none, project_sessions := [], current := none,
    active_session_id := none, current_project_history := [], migration_runs := 0 }

/-- C1 counterexample: on a fresh project (no persisted record, no legacy
record) two consecutive loads with no intervening writes produce *different*
active session ids — each load discards the in-memory list and starts a new
session with a fresh random id, and nothing was persisted in between. -/
theorem load_twice_changes_active_id :
    (load_project_sessions mgr0 (some "/p")).1.active_session_id = some "u0" ∧
    (load_project_sessions (load_project_sessions mgr0 (some "/p")).1
      (some "/p")).1.active_session_id = some "u1" ∧
    ("u0" : String) ≠ "u1" :=
  ⟨rfl, rfl, by decide⟩

/-- Parsing preserves the number of stored sessions. -/
lemma parseSessions_length (g : Gen) (ds : List SessionDict) :
    (parseSessions g ds).1.length = ds.length := by
  induction ds generalizing g with
  | nil => rfl
  | cons d tl ih =>
    rcases hfd : ChatSession.from_dict g d with ⟨s, g1⟩
    rcases hps : parseSessions g1 tl with ⟨rest, g2⟩
    have h2 := ih g1
    rw [hps] at h2
    simp [parseSessions, hfd, hps, h2]

/-- A parsed session keeps the stored id when that id is truthy. -/
lemma from_dict_session_id (g : Gen) (d : SessionDict)
    (h : d.session_id.getD "" ≠ "") :
    (ChatSession.from_dict g d).1.session_id = d.session_id.getD "" := by
  rcases hmk : mkChatSession g (some (d.session_name.getD "New Chat")) d.session_id
    with ⟨s, g1⟩
  have hs : s.session_id = d.session_id.getD "" := by
    unfold mkChatSession at hmk
    rw [if_neg h] at hmk
    cases hmk
    rfl
  simp [ChatSession.from_dict, hmk, hs]

/-- A parsed session's entries are a pure function of the stored object. -/
lemma from_dict_entries (g : Gen) (d : SessionDict) :
    (ChatSession.from_dict g d).1.entries
      = (d.entries.getD []).map ChatEntry.from_dict := by
  rcases hmk : mkChatSession g (some (d.session_name.getD "New Chat")) d.session_id
    with ⟨s, g1⟩
  simp [ChatSession.from_dict, hmk]

/-- The ids of a parsed session list do not depend on the clock/uuid
supply when every stored session carries a truthy id. -/
lemma parseSessions_ids (g : Gen) (ds : List SessionDict)
    (h : ∀ d ∈ ds, d.session_id.getD "" ≠ "") :
    (parseSessions g ds).1.map (fun s => s.session_id)
      = ds.map (fun d => d.session_id.getD "") := by
  induction ds generalizing g with
  | nil => rfl
  | cons d tl ih =>
    rcases hfd : ChatSession.from_dict g d with ⟨s, g1⟩
    rcases hps : parseSessions g1 tl with ⟨rest, g2⟩
    have hid : s.session_id = d.session_id.getD "" := by
      have h2 := from_dict_session_id g d (h d (by simp))
      rw [hfd] at h2
      exact h2
    have htl := ih g1 (fun d2 hd2 => h d2 (by simp [hd2]))
    rw [hps] at htl
    simp [parseSessions, hfd, hps, hid, htl]

/-- The entry lists of a parsed session list never depend on the clock/uuid
supply. -/
lemma parseSessions_entries (g : Gen) (ds : List SessionDict) :
    (parseSessions g ds).1.map (fun s => s.entries)
      = ds.map (fun d => (d.entries.getD []).map ChatEntry.from_dict) := by
  induction ds generalizing g with
  | nil => rfl
  | cons d tl ih =>
    rcases hfd : ChatSession.from_dict g d with ⟨s, g1⟩
    rcases hps : parseSessions g1 tl with ⟨rest, g2⟩
    have hes : s.entries = (d.entries.getD []).map ChatEntry.from_dict := by
      have h2 := from_dict_entries g d
      rw [hfd] at h2
      exact h2
    have htl := ih g1
    rw [hps] at htl
    simp [parseSessions, hfd, hps, hes, htl]

/-- Characterization of `load_project_sessions` when the persisted record
exists and holds at least one session: the parsed list is installed, the
last parsed session becomes active, the filesystem is untouched and the
migration never runs. -/
lemma load_good (st : MState) (p : Option String) (ds : List SessionDict)
    (h1 : lookupA st.fs_sessions (get_project_id p) = some (.good ds))
    (hne : ds ≠ []) :
    (load_project_sessions st p).2 = (parseSessions st.gen ds).1 ∧
    (load_project_sessions st p).1.active_session_id
      = ((parseSessions st.gen ds).1.map (fun s => s.session_id)).getLast? ∧
    (load_project_sessions st p).1.fs_sessions = st.fs_sessions ∧
    (load_project_sessions st p).1.migration_runs = st.migration_runs ∧
    (load_project_sessions st p).1.gen = (parseSessions st.gen ds).2 := by
  obtain ⟨g, fsS, fsL, cpp, ps, curR, asid, hist, mig⟩ := st
  simp only at h1
  have hlen := parseSessions_length g ds
  have hne2 : (parseSessions g ds).1 ≠ [] := by
    intro hc
    rw [hc] at hlen
    exact hne (List.length_eq_zero.mp hlen.symm)
  have hemp : (parseSessions g ds).1.isEmpty = false := by
    simpa [List.isEmpty_iff] using hne2
  cases hgl : (parseSessions g ds).1.getLast? with
  | none =>
    exact absurd (List.getLast?_eq_none_iff.mp hgl) hne2
  | some ls =>
    have hmap : ((parseSessions g ds).1.map (fun s => s.session_id)).getLast?
        = some ls.session_id := by
      rw [List.getLast?_map, hgl]
      rfl
    refine ⟨?_, ?_, ?_, ?_, ?_⟩ <;>
      simp [load_project_sessions, h1, hemp, hgl, hmap, lookupA_setA_self]

/-- C1 amended: once the per-project record exists and parses to a
non-empty session list whose sessions all carry their stored (truthy) ids —
which is true of every record `save_project_sessions` writes — two
consecutive `load_project_sessions` calls with no intervening writes agree
on the active session id, return session lists with identical ids and
identical entry lists of identical length (no duplication, no loss), and
never invoke the legacy migration. -/
theorem load_project_sessions_idempotent
    (st : MState) (p : Option String) (ds : List SessionDict)
    (h1 : lookupA st.fs_sessions (get_project_id p) = some (.good ds))
    (h2 : ds ≠ [])
    (h3 : ∀ d ∈ ds, d.session_id.getD "" ≠ "") :
    (load_project_sessions (load_project_sessions st p).1 p).1.active_session_id
      = (load_project_sessions st p).1.active_session_id ∧
    (load_project_sessions (load_project_sessions st p).1 p).2.map (fun s => s.session_id)
      = (load_project_sessions st p).2.map (fun s => s.session_id) ∧
    (load_project_sessions (load_project_sessions st p).1 p).2.map (fun s => s.entries)
      = (load_project_sessions st p).2.map (fun s => s.entries) ∧
    (load_project_sessions (load_project_sessions st p).1 p).2.length
      = (load_project_sessions st p).2.length ∧
    (load_project_sessions st p).1.migration_runs = st.migration_runs ∧
    (load_project_sessions (load_project_sessions st p).1 p).1.migration_runs
      = st.migration_runs := by
  obtain ⟨hr1, ha1, hfs1, hmig1, hgen1⟩ := load_good st p ds h1 h2
  have h1b : lookupA (load_project_sessions st p).1.fs_sessions (get_project_id p)
      = some (.good ds) := by rw [hfs1]; exact h1
  obtain ⟨hr2, ha2, hfs2, hmig2, hgen2⟩ := load_good (load_project_sessions st p).1 p ds h1b h2
  have hids1 := parseSessions_ids st.gen ds h3
  have hids2 := parseSessions_ids (load_project_sessions st p).1.gen ds h3
  have hes1 := parseSessions_entries st.gen ds
  have hes2 := parseSessions_entries (load_project_sessions st p).1.gen ds
  refine ⟨?_, ?_, ?_, ?_, hmig1, by rw [hmig2, hmig1]⟩
  · rw [ha1, ha2, hids1, hids2]
  · rw [hr1, hr2, hids1, hids2]
  · rw [hr1, hr2, hes1, hes2]
  · rw [hr1, hr2, parseSessions_length, parseSessions_length]

/-- C1 witness data: a stored record with two sessions carrying their ids. -/
def witStoredEntry : EntryDict :=
  { id := some "e0000001", timestamp := "2024-01-01T00:00:00", prompt_type := "prompt",
    prompt_text := "hello", response_text := "world", model_used := "m",
    token_usage := some [] }

/-- C1 witness data: the persisted per-project record. -/
def witStored : List SessionDict :=
  [{ session_id := some "s0000001", session_name := some "First",
     created_at := some "2024-01-01T00:00:00", updated_at := some "2024-01-01T00:01:00",
     entries := some [witStoredEntry], is_saved := some true, auto_named := some true },
   { session_id := some "s0000002", session_name := some "Second",
     created_at := some "2024-01-02T00:00:00", updated_at := some "2024-01-02T00:01:00",
     entries := some [], is_saved := some false, auto_named := some false }]

/-- C1 witness data: a manager whose filesystem holds that record. -/
def mgrStored : MState :=
  { mgr0 with fs_sessions := [(get_project_id (some "/p"), .good witStored)] }

set_option maxRecDepth 8000 in
/-- C1 witness: the amended idempotence theorem applied at the concrete
stored state. -/
theorem load_project_sessions_idempotent_witness :
    (load_project_sessions (load_project_sessions mgrStored (some "/p")).1
        (some "/p")).1.active_session_id
      = (load_project_sessions mgrStored (some "/p")).1.active_session_id ∧
    (load_project_sessions (load_project_sessions mgrStored (some "/p")).1
        (some "/p")).2.map (fun s => s.session_id)
      = (load_project_sessions mgrStored (some "/p")).2.map (fun s => s.session_id) ∧
    (load_project_sessions (load_project_sessions mgrStored (some "/p")).1
        (some "/p")).2.map (fun s => s.entries)
      = (load_project_sessions mgrStored (some "/p")).2.map (fun s => s.entries) ∧
    (load_project_sessions (load_project_sessions mgrStored (some "/p")).1
        (some "/p")).2.length
      = (load_project_sessions mgrStored (some "/p")).2.length ∧
    (load_project_sessions mgrStored (some "/p")).1.migration_runs
      = mgrStored.migration_runs ∧
    (load_project_sessions (load_project_sessions mgrStored (some "/p")).1
        (some "/p")).1.migration_runs
      = mgrStored.migration_runs :=
  load_project_sessions_idempotent mgrStored (some "/p") witStored rfl
    (by decide) (by decide)

/-- A nonempty right part makes a concatenation nonempty. -/
lemma append_ne_empty_right (s t : String) (h : t ≠ "") : s ++ t ≠ "" := by
  intro hc
  apply h
  cases s with
  | mk a =>
    cases t with
    | mk b =>
      have hdata : a ++ b = ([] : List Char) := congrArg String.data hc
      have hb : b = [] := (List.append_eq_nil.mp hdata).2
      rw [hb]

/-- Indexing a decomposed list at the marker position. -/
lemma getElem_append_len {α : Type} (pre post : List α) (a : α)
    (h : pre.length < (pre ++ a :: post).length) :
    (pre ++ a :: post)[pre.length] = a := by
  induction pre with
  | nil => rfl
  | cons x xs ih => simpa using ih (by simp)

/-- Optional indexing of a decomposed list at the marker position. -/
lemma getElem?_append_len {α : Type} (pre post : List α) (a : α) :
    (pre ++ a :: post)[pre.length]? = some a := by
  induction pre with
  | nil => simp
  | cons x xs ih => simpa using ih

/-- C3: appending an entry to an active session that already holds at least
the threshold's worth of entries (so the count rises above 50) triggers
exactly one split: all but the most recent 25 entries move, in order and
with no loss or duplication, into a new session named
`"<original name> (Part 1)"` with `is_saved = true` and timestamps taken
from the first/last moved entry; the new session sits immediately before
the original in the project list, and the still-current original keeps its
`session_id` with exactly the most recent 25 entries. -/
theorem add_chat_entry_split_spec
    (st : MState) (pp : String) (pre post : List ChatSession) (cur : ChatSession)
    (pt px rx mu : String) (tu : Option (List (String × Nat)))
    (hpath : st.current_project_path = some pp)
    (hpp : pp ≠ "")
    (hcur : st.current = some (.inList (get_project_id (some pp)) pre.length))
    (hl : lookupA st.project_sessions (get_project_id (some pp))
      = some (pre ++ cur :: post))
    (hn : 50 ≤ cur.entries.length) :
    ∃ moved active : ChatSession,
      lookupA (add_chat_entry st pt px rx mu tu).1.project_sessions
          (get_project_id (some pp))
        = some (pre ++ moved :: active :: post) ∧
      moved.entries = (cur.entries ++ [(add_chat_entry st pt px rx mu tu).2]).take
        (cur.entries.length + 1 - 25) ∧
      active.entries = (cur.entries ++ [(add_chat_entry st pt px rx mu tu).2]).drop
        (cur.entries.length + 1 - 25) ∧
      moved.entries ++ active.entries
        = cur.entries ++ [(add_chat_entry st pt px rx mu tu).2] ∧
      active.entries.length = 25 ∧
      active.session_id = cur.session_id ∧
      moved.session_name = cur.session_name ++ " (Part 1)" ∧
      moved.is_saved = true ∧
      (∃ e0, moved.entries.head? = some e0 ∧ moved.created_at = e0.timestamp) ∧
      (∃ eL, moved.entries.getLast? = some eL ∧ moved.updated_at = eL.timestamp) ∧
      (add_chat_entry st pt px rx mu tu).1.current
        = some (.inList (get_project_id (some pp)) (pre.length + 1)) := by
  obtain ⟨g, fsS, fsL, cpp, ps, curR, asid, hist, mig⟩ := st
  simp only at hpath hcur hl
  subst hpath
  subst hcur
  have hone : ¬(cur.entries.length + 1 = 1) := by omega
  have hnil : ¬(cur.entries = []) := by
    intro hc
    rw [hc] at hn
    simp at hn
  have hgt : 50 < cur.entries.length + 1 := by omega
  have hnm2 : ¬(cur.session_name ++ " (Part 1)" = "") :=
    append_ne_empty_right _ _ (by decide)
  have hlt : ∀ (x : ChatSession) (l2 : List ChatSession),
      pre.length < (pre ++ x :: l2).length := by
    intro x l2
    simp
  refine ⟨⟨"u" ++ toString g.uuidCtr, cur.session_name ++ " (Part 1)",
      (Option.map (fun e => e.timestamp)
        ((cur.entries ++ [mkChatEntry ("T" ++ toString g.clock) pt px rx mu tu]).take
          (cur.entries.length - 24)).head?).getD ("T" ++ toString (g.clock + 1 + 1)),
      (Option.map (fun e => e.timestamp)
        ((cur.entries ++ [mkChatEntry ("T" ++ toString g.clock) pt px rx mu tu]).take
          (cur.entries.length - 24)).getLast?).getD ("T" ++ toString (g.clock + 1 + 1)),
      (cur.entries ++ [mkChatEntry ("T" ++ toString g.clock) pt px rx mu tu]).take
        (cur.entries.length - 24),
      true, false⟩,
    ⟨cur.session_id, cur.session_name, cur.created_at, "T" ++ toString (g.clock + 1),
      (cur.entries ++ [mkChatEntry ("T" ++ toString g.clock) pt px rx mu tu]).drop
        (cur.entries.length - 24),
      false, cur.auto_named⟩,
    ?_, ?_, ?_, ?_, ?_, ?_, ?_, ?_, ?_, ?_, ?_⟩
  · simp [add_chat_entry, MState.setCurrent, MState.getCurrent, split_session,
      schedule_auto_naming, save_project_sessions, mkChatSession, Gen.now,
      Gen.freshUuid, pathTruthy, hl, getElem_append_len, getElem?_append_len,
      set_append_length, lookupA_setA_self, hone, hnil, hgt, hnm2, hlt, hpp]
  · simp [add_chat_entry, MState.setCurrent, MState.getCurrent, split_session,
      schedule_auto_naming, save_project_sessions, mkChatSession, Gen.now,
      Gen.freshUuid, pathTruthy, hl, getElem_append_len, getElem?_append_len,
      set_append_length, lookupA_setA_self, hone, hnil, hgt, hnm2, hlt, hpp]
  · simp [add_chat_entry, MState.setCurrent, MState.getCurrent, split_session,
      schedule_auto_naming, save_project_sessions, mkChatSession, Gen.now,
      Gen.freshUuid, pathTruthy, hl, getElem_append_len, getElem?_append_len,
      set_append_length, lookupA_setA_self, hone, hnil, hgt, hnm2, hlt, hpp]
  · simp [add_chat_entry, MState.setCurrent, MState.getCurrent, split_session,
      schedule_auto_naming, save_project_sessions, mkChatSession, Gen.now,
      Gen.freshUuid, pathTruthy, hl, getElem_append_len, getElem?_append_len,
      set_append_length, lookupA_setA_self, hone, hnil, hgt, hnm2, hlt, hpp,
      List.take_append_drop]
  · simp only [List.length_drop, List.length_append, List.length_cons,
      List.length_nil]
    omega
  · rfl
  · rfl
  · rfl
  · cases hh : ((cur.entries ++ [mkChatEntry ("T" ++ toString g.clock) pt px rx mu tu]).take
        (cur.entries.length - 24)).head? with
    | none =>
      exfalso
      have hlen2 : ((cur.entries ++ [mkChatEntry ("T" ++ toString g.clock) pt px rx mu tu]).take
          (cur.entries.length - 24)).length = cur.entries.length - 24 := by
        rw [List.length_take]
        simp only [List.length_append, List.length_cons, List.length_nil]
        omega
      have := List.head?_eq_none_iff.mp hh
      rw [this] at hlen2
      simp at hlen2
      omega
    | some e0 => exact ⟨e0, rfl, rfl⟩
  · cases hh : ((cur.entries ++ [mkChatEntry ("T" ++ toString g.clock) pt px rx mu tu]).take
        (cur.entries.length - 24)).getLast? with
    | none =>
      exfalso
      have hlen2 : ((cur.entries ++ [mkChatEntry ("T" ++ toString g.clock) pt px rx mu tu]).take
          (cur.entries.length - 24)).length = cur.entries.length - 24 := by
        rw [List.length_take]
        simp only [List.length_append, List.length_cons, List.length_nil]
        omega
      have := List.getLast?_eq_none_iff.mp hh
      rw [this] at hlen2
      simp at hlen2
      omega
    | some eL => exact ⟨eL, rfl, rfl⟩
  · simp [add_chat_entry, MState.setCurrent, MState.getCurrent, split_session,
      schedule_auto_naming, save_project_sessions, mkChatSession, Gen.now,
      Gen.freshUuid, pathTruthy, hl, getElem_append_len, getElem?_append_len,
      set_append_length, lookupA_setA_self, hone, hnil, hgt, hnm2, hlt, hpp]

/-- C3 witness data: a session already holding 50 entries. -/
def splitCur : ChatSession :=
  { session_id := "sid00001", session_name := "Long Chat", created_at := "T0",
    updated_at := "T1",
    entries := (List.range 50).map (fun i =>
      { id := toString i, timestamp := "t" ++ toString i, prompt_type := "prompt",
        prompt_text := "p", response_text := "r", model_used := "m",
        token_usage := [] }),
    is_saved := true, auto_named := true }

/-- C3 witness data: a manager whose active session is that 50-entry
session. -/
def mgrSplit : MState :=
  { gen := { clock := 100, uuidCtr := 7 }, fs_sessions := [], fs_legacy := [],
    current_project_path := some "/p",
    project_sessions := [(get_project_id (some "/p"), [splitCur])],
    current := some (.inList (get_project_id (some "/p")) 0),
    active_session_id := some "sid00001", current_project_history := [],
    migration_runs := 0 }

set_option maxRecDepth 8000 in
/-- C3 witness: the split theorem applied to that concrete manager. -/
theorem add_chat_entry_split_spec_witness :
    ∃ moved active : ChatSession,
      lookupA (add_chat_entry mgrSplit "prompt" "hello" "resp" "model"
          none).1.project_sessions (get_project_id (some "/p"))
        = some ([] ++ moved :: active :: []) ∧
      moved.entries = (splitCur.entries ++ [(add_chat_entry mgrSplit "prompt" "hello"
        "resp" "model" none).2]).take (splitCur.entries.length + 1 - 25) ∧
      active.entries = (splitCur.entries ++ [(add_chat_entry mgrSplit "prompt" "hello"
        "resp" "model" none).2]).drop (splitCur.entries.length + 1 - 25) ∧
      moved.entries ++ active.entries
        = splitCur.entries ++ [(add_chat_entry mgrSplit "prompt" "hello"
            "resp" "model" none).2] ∧
      active.entries.length = 25 ∧
      active.session_id = splitCur.session_id ∧
      moved.session_name = splitCur.session_name ++ " (Part 1)" ∧
      moved.is_saved = true ∧
      (∃ e0, moved.entries.head? = some e0 ∧ moved.created_at = e0.timestamp) ∧
      (∃ eL, moved.entries.getLast? = some eL ∧ moved.updated_at = eL.timestamp) ∧
      (add_chat_entry mgrSplit "prompt" "hello" "resp" "model" none).1.current
        = some (.inList (get_project_id (some "/p")) (([] : List ChatSession).length + 1)) :=
  add_chat_entry_split_spec mgrSplit "/p" [] [] splitCur "prompt" "hello" "resp"
    "model" none rfl (by decide) rfl rfl (by decide)
